import Mathlib

/-!
# Verification of the jira→pulsar ingestion pipeline

Shallow embedding of the two pipeline scripts
(`jira-pulsar-webhook.py` and `jira-to-pulsar-sync.py`):
JSON values are an inductive type, Python dicts are ordered association
lists (insertion order preserved, as in CPython), and fallible Python
operations return `Except PyError`.  The normalizer, envelope builder,
webhook handler and backfill driver are translated operation by operation
from the source; theorems at the end settle the frozen claims.
-/

set_option autoImplicit false

namespace JiraPulsar

/-- A JSON value, as produced by `request.json` / `response.json()`.
Objects are ordered association lists, mirroring CPython dict insertion
order.  Numbers are modelled as integers; no claim depends on fractional
values. -/
inductive Json where
  | null
  | bool (b : Bool)
  | num (n : Int)
  | str (s : String)
  | arr (elems : List Json)
  | obj (kvs : List (String × Json))
deriving Repr

/-- The Python exceptions the embedded code can raise. -/
inductive PyError where
  /-- e.g. calling `.get` / `.items` on a non-dict -/
  | attributeError
  /-- e.g. indexing or iterating a value of the wrong type -/
  | typeError
  /-- `d[k]` on a dict lacking `k` -/
  | keyError (k : String)
  /-- an exception raised by `producer.send` (bus unreachable, broker
  rejection, ...) -/
  | pulsarError
deriving Repr, DecidableEq

/-- First binding of key `k` in an association list — CPython dict lookup
(dicts never hold duplicate keys, so "first" is exact). -/
def lookupFirst : List (String × Json) → String → Option Json
  | [], _ => none
  | (k', v) :: rest, k => if k' = k then some v else lookupFirst rest k

/-- CPython `d[k] = v`: replace the value in place if the key is present
(position preserved), otherwise append the new binding at the end. -/
def updateFirst : List (String × Json) → String → Json → List (String × Json)
  | [], k, v => [(k, v)]
  | (k', v') :: rest, k, v =>
      if k' = k then (k, v) :: rest else (k', v') :: updateFirst rest k v

/-- View a value as a dict, as `.items()` / `.get` demand; anything else
raises `AttributeError`. -/
def asObj : Json → Except PyError (List (String × Json))
  | .obj kvs => .ok kvs
  | _ => .error .attributeError

/-- Python `d.get(k)`: `None` when absent; `AttributeError` on non-dicts. -/
def pyGetAttr (j : Json) (k : String) : Except PyError Json :=
  match j with
  | .obj kvs => .ok ((lookupFirst kvs k).getD .null)
  | _ => .error .attributeError

/-- Python `d.get(k, default)`. -/
def pyGetDefault (j : Json) (k : String) (d : Json) : Except PyError Json :=
  match j with
  | .obj kvs => .ok ((lookupFirst kvs k).getD d)
  | _ => .error .attributeError

/-- Python `d[k]` subscription with a string key: dict lookup or
`KeyError`; any other receiver raises `TypeError`. -/
def pyGetItem (j : Json) (k : String) : Except PyError Json :=
  match j with
  | .obj kvs =>
      match lookupFirst kvs k with
      | some v => .ok v
      | none => .error (.keyError k)
  | _ => .error .typeError

/-- Python `"k" in j`: key test on dicts, element equality on lists,
substring test on strings, `TypeError` otherwise. -/
def pyContains (j : Json) (k : String) : Except PyError Bool :=
  match j with
  | .obj kvs => .ok (kvs.any (fun kv => kv.1 == k))
  | .arr xs => .ok (xs.any (fun x => match x with | .str s => s == k | _ => false))
  | .str s => .ok (decide (k.toList <:+: s.toList))
  | _ => .error .typeError

/-- Python iteration (`for x in j`, `list.extend(j)`): lists yield their
elements, strings their one-character substrings, dicts their keys;
anything else raises `TypeError`. -/
def iterElems : Json → Except PyError (List Json)
  | .arr xs => .ok xs
  | .str s => .ok (s.toList.map (fun c => .str (String.singleton c)))
  | .obj kvs => .ok (kvs.map (fun kv => .str kv.1))
  | _ => .error .typeError

/-- Python truthiness of a JSON value. -/
def truthy : Json → Bool
  | .null => false
  | .bool b => b
  | .num n => n != 0
  | .str s => !s.isEmpty
  | .arr xs => !xs.isEmpty
  | .obj kvs => !kvs.isEmpty

/-- Python `len`. -/
def pyLen : Json → Except PyError Nat
  | .arr xs => .ok xs.length
  | .str s => .ok s.length
  | .obj kvs => .ok kvs.length
  | _ => .error .typeError

/-- Python `j[k] = v` on a JSON value: dict assignment; `TypeError` on a
non-dict receiver. -/
def jsonSetItem (j : Json) (k : String) (v : Json) : Except PyError Json :=
  match j with
  | .obj kvs => .ok (.obj (updateFirst kvs k v))
  | _ => .error .typeError

/-! ## FieldNormalizer — `filter_relevant_fields` -/

/-- `relevant_fields` of `filter_relevant_fields`. -/
def relevant_fields : List String := ["id", "key", "fields"]

/-- `relevant_subfields` of `filter_relevant_fields`. -/
def relevant_subfields : List String :=
  ["issuetype", "project", "priority", "summary", "description", "status",
   "creator", "reporter", "created", "updated", "labels", "comment"]

/-- `relevant_nested_fields` of `filter_relevant_fields`: the per-subfield
nested-attribute whitelists (a Python dict keyed by subfield name). -/
def relevant_nested_fields : List (String × List String) :=
  [("statusCategory", ["key", "name", "colorName"]),
   ("creator", ["displayName", "emailAddress", "timeZone"]),
   ("reporter", ["displayName", "emailAddress", "timeZone"]),
   ("project", ["key", "name", "projectTypeKey"]),
   ("issuetype", ["name", "description", "subtask"])]

/-- Membership/lookup in `relevant_nested_fields`. -/
def nestedWhitelist (k : String) : Option (List String) :=
  (relevant_nested_fields.find? (fun kv => kv.1 == k)).map (fun kv => kv.2)

/-- One rebuilt comment entry: the dict comprehension of the comment
branch, `{author: {displayName, emailAddress}, body, created, updated}`
with each attribute read by `.get` (hence `null` when absent). -/
def rebuildEntry (c : Json) : Except PyError Json := do
  let author ← pyGetDefault c "author" (.obj [])
  let dn ← pyGetAttr author "displayName"
  let ea ← pyGetAttr author "emailAddress"
  let body ← pyGetAttr c "body"
  let created ← pyGetAttr c "created"
  let updated ← pyGetAttr c "updated"
  .ok (.obj [("author", .obj [("displayName", dn), ("emailAddress", ea)]),
             ("body", body), ("created", created), ("updated", updated)])

/-- The list comprehension over `field_value.get("comments", [])`,
left to right, first raised exception wins. -/
def rebuildEntries : List Json → Except PyError (List Json)
  | [] => .ok []
  | c :: rest => do
      let e ← rebuildEntry c
      let tail ← rebuildEntries rest
      .ok (e :: tail)

/-- The `comment` special case: `{"comments": [rebuild each entry]}` over
`field_value.get("comments", [])`. -/
def rebuildComment (kvs : List (String × Json)) : Except PyError Json := do
  let raw := (lookupFirst kvs "comments").getD (.arr [])
  let elems ← iterElems raw
  let entries ← rebuildEntries elems
  .ok (.obj [("comments", .arr entries)])

/-- The body of the `for field_key, field_value in ...` loop of
`filter_relevant_fields`: `none` when the subfield is dropped, `some v'`
when it is retained (pruned, rebuilt, or verbatim).  A non-dict value
falls through both `isinstance(field_value, dict)` guards, so it is
always copied verbatim; for dict values the branch order (nested
whitelist, then the `comment` special case, then verbatim) is the
source's `if`/`elif`/`else` chain. -/
def processField (k : String) (v : Json) : Except PyError (Option Json) :=
  if relevant_subfields.contains k then
    match v with
    | .obj kvs =>
        match nestedWhitelist k with
        | some allowed =>
            .ok (some (.obj (kvs.filter (fun kv => allowed.contains kv.1))))
        | none =>
            if k = "comment" then do
              let c ← rebuildComment kvs
              .ok (some c)
            else .ok (some (.obj kvs))
    | _ => .ok (some v)
  else .ok none

/-- The whole subfield loop, building `filtered_fields` in iteration
order. -/
def filterFields : List (String × Json) → Except PyError (List (String × Json))
  | [] => .ok []
  | (k, v) :: rest => do
      let h ← processField k v
      let tail ← filterFields rest
      .ok (match h with
           | none => tail
           | some v' => (k, v') :: tail)

/-- `filter_relevant_fields(issue_data)` of both pipeline scripts: keep
only the relevant top-level keys, then rebuild `fields` through the
subfield loop when present. -/
def filter_relevant_fields (issue_data : Json) : Except PyError Json := do
  let kvs ← asObj issue_data
  let filtered := kvs.filter (fun kv => relevant_fields.contains kv.1)
  match lookupFirst filtered "fields" with
  | none => .ok (.obj filtered)
  | some fv => do
      let fkvs ← asObj fv
      let ffields ← filterFields fkvs
      .ok (.obj (updateFirst filtered "fields" (.obj ffields)))

/-! ## EnvelopeBuilder — `prepare_data_for_pulsar` -/

/-- A captured UTC instant, the fields `datetime.now(timezone.utc)`
exposes to `strftime`. -/
structure Instant where
  year : Nat
  month : Nat
  day : Nat
  hour : Nat
  minute : Nat
  second : Nat
  micro : Nat
deriving Repr

/-- The decimal digit character for `n % 10`-sized values. -/
def digitChar (n : Nat) : Char := Char.ofNat (48 + n)

/-- Decimal digit rendering, structurally recursive on a fuel bound (the
fuel `n + 1` always suffices since `n / 10 < n` for `n ≥ 10`). -/
def decDigitsAux : Nat → Nat → List Char
  | 0, _ => []
  | fuel + 1, n =>
      if n < 10 then [digitChar n]
      else decDigitsAux fuel (n / 10) ++ [digitChar (n % 10)]

/-- Decimal digit string of a natural number, most significant first. -/
def decDigits (n : Nat) : List Char := decDigitsAux (n + 1) n

/-- Zero-pad on the left to width `w` — the behaviour of `strftime`'s
numeric directives for in-range `datetime` components. -/
def padZero (w : Nat) (ds : List Char) : List Char :=
  List.replicate (w - ds.length) '0' ++ ds

/-- `datetime.now(timezone.utc).strftime("%Y-%m-%dT%H:%M:%S.%f")[:-3] + "+0000"`:
render the instant with zero-padded decimal components (`%f` six digits),
drop the last three characters (microseconds → milliseconds), append the
literal offset. -/
def strftime_ts (t : Instant) : String :=
  let datePart := padZero 4 (decDigits t.year) ++ ['-'] ++
                  padZero 2 (decDigits t.month) ++ ['-'] ++
                  padZero 2 (decDigits t.day)
  let timePart := padZero 2 (decDigits t.hour) ++ [':'] ++
                  padZero 2 (decDigits t.minute) ++ [':'] ++
                  padZero 2 (decDigits t.second) ++ ['.'] ++
                  padZero 6 (decDigits t.micro)
  ((datePart ++ ['T'] ++ timePart).dropLast.dropLast.dropLast ++
   "+0000".toList).asString

/-- Python `s.split('T')[0]`: the characters before the first `'T'`
(the whole string when no `'T'` occurs). -/
def splitHeadT (s : String) : String :=
  (s.toList.takeWhile (fun c => c ≠ 'T')).asString

/-- `prepare_data_for_pulsar(issue_data, event_type)`: normalize, then add
`timestamp`, `date`, `event_type` and `url` by dict assignment.  The
module-level `jira_config['jira_url']` and the captured instant are
parameters of the embedding. -/
def prepare_data_for_pulsar (jira_url : String) (issue_data : Json)
    (event_type : String) (now : Instant) : Except PyError Json := do
  let timestamp := strftime_ts now
  let filtered ← filter_relevant_fields issue_data
  let d1 ← jsonSetItem filtered "timestamp" (.str timestamp)
  let d2 ← jsonSetItem d1 "date" (.str (splitHeadT timestamp))
  let d3 ← jsonSetItem d2 "event_type" (.str event_type)
  let key ← pyGetDefault issue_data "key" (.str "")
  match key with
  | .str k => jsonSetItem d3 "url" (.str (jira_url ++ "/browse/" ++ k))
  | _ => .error .typeError

/-! ## Publisher — `send_to_pulsar` -/

/-- `producer.send(...)`: succeeds or raises, as the broker decides; the
outcome is the `publishOk` oracle.  Serialization of a `Json` value by
`json.dumps` never raises. -/
def producer_send (publishOk : Bool) : Except PyError Unit :=
  if publishOk then .ok () else .error .pulsarError

/-- `send_to_pulsar(data)`: the `try/except Exception` swallows every
publish failure (it only prints), so the function always returns
normally, whatever `producer.send` did. -/
def send_to_pulsar (publishOk : Bool) : Unit :=
  match producer_send publishOk with
  | .ok _ => ()
  | .error _ => ()

/-! ## SyncOrchestrator — webhook driver (`jira_webhook`) -/

/-- Observable side effects of a handler run: a tracker detail fetch for
an issue id, and a publish attempt (`send_to_pulsar` call) with its
payload. -/
inductive Eff where
  | fetch (issue_id : Json)
  | publish (payload : Json)
deriving Repr

/-- The `/jira-webhook` POST handler.  `isJson` is `request.is_json`,
`body` the parsed JSON body, `eventKey` the optional `X-Event-Key`
header, `fetchFn` the outcome of `get_issue_details` (`none` models the
caught `requests.RequestException`), `publishOk` the broker outcome.
Returns the HTTP response (status, body tag) and the effect trace; an
uncaught Python exception is `.error`. -/
def jira_webhook (isJson : Bool) (body : Json) (eventKey : Option String)
    (fetchFn : Json → Option Json) (publishOk : Bool)
    (jira_url : String) (now : Instant) :
    Except PyError ((Nat × String) × List Eff) :=
  if !isJson then .ok ((400, "Invalid request format; expected JSON"), [])
  else do
    let event_type := eventKey.getD "Unknown Event"
    let hasIssue ← pyContains body "issue"
    if hasIssue then do
      let issue ← pyGetItem body "issue"
      let issue_id ← pyGetItem issue "id"
      match fetchFn issue_id with
      | some issue_data =>
          if truthy issue_data then do
            let payload ← prepare_data_for_pulsar jira_url issue_data event_type now
            let _ := send_to_pulsar publishOk
            .ok ((200, "success"), [.fetch issue_id, .publish payload])
          else .ok ((500, "Failed to fetch issue details"), [.fetch issue_id])
      | none => .ok ((500, "Failed to fetch issue details"), [.fetch issue_id])
    else .ok ((400, "No issue data found in payload"), [])

/-! ## SyncOrchestrator — backfill driver (`jira-to-pulsar-sync.py`) -/

/-- Outcome of one search-page request: `requestError` models a raised
`requests.RequestException` (transport failure or `raise_for_status` on a
non-2xx); `response` a 2xx whose body parsed to the given JSON. -/
inductive PageFetchResult where
  | requestError
  | response (body : Json)

/-- `max_results` of `get_all_issues`. -/
def max_results : Nat := 50

/-- The `while True` pagination loop of `get_all_issues`, unrolled on
`fuel` (`none` = still looping after `fuel` pages).  Accumulates the
issue summaries and the list of `startAt` offsets actually requested.
Mirrors the body exactly: extend with `data.get("issues", [])`, advance
the offset, then test `len(data["issues"]) < max_results`; only
`requests.RequestException` is caught. -/
def get_all_issues_loop (fetchPage : Nat → PageFetchResult) :
    Nat → Nat → List Json → List Nat →
    Option (Except PyError (List Json × List Nat))
  | 0, _, _, _ => none
  | fuel + 1, start_at, issues, trace =>
    let trace := trace ++ [start_at]
    match fetchPage start_at with
    | .requestError => some (.ok (issues, trace))
    | .response data =>
      match asObj data with
      | .error e => some (.error e)
      | .ok kvs =>
        match iterElems ((lookupFirst kvs "issues").getD (.arr [])) with
        | .error e => some (.error e)
        | .ok elems =>
          let issues := issues ++ elems
          let start_at := start_at + max_results
          match lookupFirst kvs "issues" with
          | none => some (.error (.keyError "issues"))
          | some v =>
            match pyLen v with
            | .error e => some (.error e)
            | .ok n =>
              if n < max_results then some (.ok (issues, trace))
              else get_all_issues_loop fetchPage fuel start_at issues trace

/-- `get_all_issues()`: run the pagination loop from offset 0. -/
def get_all_issues (fetchPage : Nat → PageFetchResult) (fuel : Nat) :
    Option (Except PyError (List Json × List Nat)) :=
  get_all_issues_loop fetchPage fuel 0 [] []

/-- The per-issue `for issue in issues` loop of `main()`: fetch details
(`none` models the caught request error), skip falsy results, otherwise
prepare and publish (the publish outcome is swallowed by
`send_to_pulsar`).  Returns the list of published payloads in order. -/
def processIssues (fetchDetails : Json → Option Json)
    (publishOk : Json → Bool) (jira_url : String) (now : Instant) :
    List Json → Except PyError (List Json)
  | [] => .ok []
  | issue :: rest => do
      let issue_id ← pyGetItem issue "id"
      match fetchDetails issue_id with
      | some issue_data =>
          if truthy issue_data then do
            let payload ← prepare_data_for_pulsar jira_url issue_data "initial_load" now
            let _ := send_to_pulsar (publishOk payload)
            let tail ← processIssues fetchDetails publishOk jira_url now rest
            .ok (payload :: tail)
          else processIssues fetchDetails publishOk jira_url now rest
      | none => processIssues fetchDetails publishOk jira_url now rest

/-- `main()` of the sync script: gather all pages, bail out when nothing
was retrieved, otherwise drive every accumulated summary through
fetch→normalize→publish. -/
def sync_main (fetchPage : Nat → PageFetchResult)
    (fetchDetails : Json → Option Json) (publishOk : Json → Bool)
    (jira_url : String) (now : Instant) (fuel : Nat) :
    Option (Except PyError (List Json)) :=
  match get_all_issues fetchPage fuel with
  | none => none
  | some (.error e) => some (.error e)
  | some (.ok (issues, _)) =>
      if issues.isEmpty then some (.ok [])
      else some (processIssues fetchDetails publishOk jira_url now issues)

/-! ## Association-list lemmas -/

theorem lookupFirst_updateFirst_self (l : List (String × Json)) (k : String) (v : Json) :
    lookupFirst (updateFirst l k v) k = some v := by
  induction l with
  | nil => simp [updateFirst, lookupFirst]
  | cons kv rest ih =>
      obtain ⟨k', v'⟩ := kv
      by_cases h : k' = k
      · subst h; simp [updateFirst, lookupFirst]
      · simp [updateFirst, lookupFirst, h, ih]

theorem lookupFirst_updateFirst_ne (l : List (String × Json)) (k k' : String) (v : Json)
    (h : k' ≠ k) : lookupFirst (updateFirst l k' v) k = lookupFirst l k := by
  induction l with
  | nil => simp [updateFirst, lookupFirst, h]
  | cons kv rest ih =>
      obtain ⟨k₀, v₀⟩ := kv
      by_cases h0 : k₀ = k'
      · subst h0; simp [updateFirst, lookupFirst, h]
      · by_cases hk : k₀ = k
        · subst hk; simp [updateFirst, lookupFirst, h0]
        · simp [updateFirst, lookupFirst, h0, hk, ih]

theorem mem_updateFirst {l : List (String × Json)} {k : String} {v : Json}
    {kv : String × Json} (h : kv ∈ updateFirst l k v) : kv ∈ l ∨ kv = (k, v) := by
  induction l with
  | nil => simpa [updateFirst] using h
  | cons kv₀ rest ih =>
      obtain ⟨k₀, v₀⟩ := kv₀
      by_cases h0 : k₀ = k
      · subst h0
        simp only [updateFirst, if_pos rfl] at h
        rcases List.mem_cons.mp h with h1 | h1
        · right; exact h1
        · left; exact List.mem_cons_of_mem _ h1
      · simp only [updateFirst, if_neg h0] at h
        rcases List.mem_cons.mp h with h1 | h1
        · left; exact h1 ▸ List.mem_cons_self _ _
        · rcases ih h1 with h2 | h2
          · left; exact List.mem_cons_of_mem _ h2
          · right; exact h2

theorem updateFirst_idem (l : List (String × Json)) (k : String) (v : Json) :
    updateFirst (updateFirst l k v) k v = updateFirst l k v := by
  induction l with
  | nil => simp [updateFirst]
  | cons kv rest ih =>
      obtain ⟨k₀, v₀⟩ := kv
      by_cases h0 : k₀ = k
      · subst h0; simp [updateFirst]
      · simp [updateFirst, h0, ih]

/-! ## Timestamp shape lemmas -/

theorem decDigitsAux_length_le : ∀ (fuel k n : Nat), n < 10 ^ (k + 1) →
    (decDigitsAux fuel n).length ≤ k + 1 := by
  intro fuel
  induction fuel with
  | zero => intro k n h; simp [decDigitsAux]
  | succ f ih =>
      intro k n h
      by_cases h10 : n < 10
      · simp [decDigitsAux, h10]
      · cases k with
        | zero =>
            have : n < 10 := by simpa using h
            omega
        | succ j =>
            have hdiv : n / 10 < 10 ^ (j + 1) := by
              rw [Nat.div_lt_iff_lt_mul (by omega)]
              calc n < 10 ^ (j + 1 + 1) := h
                _ = 10 ^ (j + 1) * 10 := by ring
            have := ih j (n / 10) hdiv
            simp only [decDigitsAux, if_neg h10, List.length_append, List.length_cons,
              List.length_nil]
            omega

theorem decDigits_length_le : ∀ (k n : Nat), n < 10 ^ (k + 1) → (decDigits n).length ≤ k + 1 :=
  fun k n h => decDigitsAux_length_le (n + 1) k n h

theorem decDigitsAux_mem : ∀ (fuel n : Nat), ∀ c ∈ decDigitsAux fuel n,
    ∃ d, d < 10 ∧ c = digitChar d := by
  intro fuel
  induction fuel with
  | zero => intro n c hc; simp [decDigitsAux] at hc
  | succ f ih =>
      intro n c hc
      by_cases h10 : n < 10
      · simp only [decDigitsAux, if_pos h10, List.mem_singleton] at hc
        exact ⟨n, h10, hc⟩
      · simp only [decDigitsAux, if_neg h10, List.mem_append, List.mem_singleton] at hc
        rcases hc with hc | hc
        · exact ih (n / 10) c hc
        · exact ⟨n % 10, Nat.mod_lt _ (by omega), hc⟩

theorem decDigits_mem : ∀ (n : Nat), ∀ c ∈ decDigits n, ∃ d, d < 10 ∧ c = digitChar d :=
  fun n => decDigitsAux_mem (n + 1) n

theorem digitChar_ne_T {d : Nat} (h : d < 10) : digitChar d ≠ 'T' := by
  interval_cases d <;> decide

theorem padZero_length {w : Nat} {ds : List Char} (h : ds.length ≤ w) :
    (padZero w ds).length = w := by
  simp [padZero]
  omega

theorem mem_padZero {w : Nat} {ds : List Char} {c : Char} (h : c ∈ padZero w ds) :
    c = '0' ∨ c ∈ ds := by
  simp only [padZero, List.mem_append, List.mem_replicate] at h
  rcases h with h | h
  · left; exact h.2
  · right; exact h

theorem dropLast3_append {α : Type} (l1 l2 : List α) (h : 3 ≤ l2.length) :
    (l1 ++ l2).dropLast.dropLast.dropLast = l1 ++ l2.dropLast.dropLast.dropLast := by
  have h1 : l2 ≠ [] := by intro he; subst he; simp at h
  have e1 : (l1 ++ l2).dropLast = l1 ++ l2.dropLast :=
    List.dropLast_append_of_ne_nil l1 h1
  have hl1 : 2 ≤ l2.dropLast.length := by
    rw [List.length_dropLast]; omega
  have h2 : l2.dropLast ≠ [] := by
    intro he; rw [he] at hl1; simp at hl1
  have e2 : (l1 ++ l2.dropLast).dropLast = l1 ++ l2.dropLast.dropLast :=
    List.dropLast_append_of_ne_nil l1 h2
  have hl2 : 1 ≤ l2.dropLast.dropLast.length := by
    rw [List.length_dropLast, List.length_dropLast]; omega
  have h3 : l2.dropLast.dropLast ≠ [] := by
    intro he; rw [he] at hl2; simp at hl2
  have e3 : (l1 ++ l2.dropLast.dropLast).dropLast = l1 ++ l2.dropLast.dropLast.dropLast :=
    List.dropLast_append_of_ne_nil l1 h3
  rw [e1, e2, e3]

/-- The rendered timestamp decomposes as a ten-character date (free of
`'T'`), the literal `'T'`, and a remainder. -/
theorem strftime_shape (t : Instant) (hy : t.year ≤ 9999) (hm : t.month ≤ 99)
    (hd : t.day ≤ 99) :
    ∃ R, (strftime_ts t).toList =
        (padZero 4 (decDigits t.year) ++ ['-'] ++ padZero 2 (decDigits t.month) ++ ['-'] ++
         padZero 2 (decDigits t.day)) ++ 'T' :: R ∧
      (padZero 4 (decDigits t.year) ++ ['-'] ++ padZero 2 (decDigits t.month) ++ ['-'] ++
       padZero 2 (decDigits t.day)).length = 10 ∧
      ∀ c ∈ padZero 4 (decDigits t.year) ++ ['-'] ++ padZero 2 (decDigits t.month) ++ ['-'] ++
        padZero 2 (decDigits t.day), c ≠ 'T' := by
  have hylen : (decDigits t.year).length ≤ 4 := by
    have := decDigits_length_le 3 t.year (by omega)
    omega
  have hmlen : (decDigits t.month).length ≤ 2 := by
    have := decDigits_length_le 1 t.month (by omega)
    omega
  have hdlen : (decDigits t.day).length ≤ 2 := by
    have := decDigits_length_le 1 t.day (by omega)
    omega
  set D := padZero 4 (decDigits t.year) ++ ['-'] ++ padZero 2 (decDigits t.month) ++ ['-'] ++
    padZero 2 (decDigits t.day) with hD
  have hDlen : D.length = 10 := by
    simp only [hD, List.length_append, List.length_cons, List.length_nil,
      padZero_length hylen, padZero_length hmlen, padZero_length hdlen]
  have hDmem : ∀ c ∈ D, c ≠ 'T' := by
    intro c hc
    simp only [hD, List.mem_append, List.mem_singleton] at hc
    rcases hc with (((hc | hc) | hc) | hc) | hc
    · rcases mem_padZero hc with h0 | h0
      · subst h0; decide
      · obtain ⟨d, hd10, rfl⟩ := decDigits_mem _ _ h0
        exact digitChar_ne_T hd10
    · subst hc; decide
    · rcases mem_padZero hc with h0 | h0
      · subst h0; decide
      · obtain ⟨d, hd10, rfl⟩ := decDigits_mem _ _ h0
        exact digitChar_ne_T hd10
    · subst hc; decide
    · rcases mem_padZero hc with h0 | h0
      · subst h0; decide
      · obtain ⟨d, hd10, rfl⟩ := decDigits_mem _ _ h0
        exact digitChar_ne_T hd10
  set timePart := padZero 2 (decDigits t.hour) ++ [':'] ++
    padZero 2 (decDigits t.minute) ++ [':'] ++
    padZero 2 (decDigits t.second) ++ ['.'] ++ padZero 6 (decDigits t.micro) with hT
  have htlen : 3 ≤ timePart.length := by
    simp only [hT, List.length_append, List.length_cons, List.length_nil]
    omega
  refine ⟨timePart.dropLast.dropLast.dropLast ++ "+0000".toList, ?_, hDlen, hDmem⟩
  show ((D ++ ['T'] ++ timePart).dropLast.dropLast.dropLast ++ "+0000".toList).asString.toList = _
  have : (D ++ ['T'] ++ timePart) = (D ++ ['T']) ++ timePart := by simp
  rw [this, dropLast3_append _ _ htlen]
  show ((D ++ ['T']) ++ timePart.dropLast.dropLast.dropLast ++ "+0000".toList).asString.data = _
  rw [List.asString]
  simp

theorem takeWhile_append_stop {p : Char → Bool} {t : Char} (D R : List Char)
    (hD : ∀ c ∈ D, p c = true) (ht : p t = false) :
    (D ++ t :: R).takeWhile p = D := by
  induction D with
  | nil => simp [List.takeWhile, ht]
  | cons c D ih =>
      have hc : p c = true := hD c (List.mem_cons_self _ _)
      simp only [List.cons_append, List.takeWhile_cons, hc, if_pos]
      rw [ih (fun c hcm => hD c (List.mem_cons_of_mem _ hcm))]

/-- On the webhook/backfill timestamp format, `split('T')[0]` and
"first ten characters" agree: both are the date segment. -/
theorem strftime_date_take10 (t : Instant) (hy : t.year ≤ 9999) (hm : t.month ≤ 99)
    (hd : t.day ≤ 99) :
    splitHeadT (strftime_ts t) = ((strftime_ts t).toList.take 10).asString := by
  obtain ⟨R, hts, hlen, hmem⟩ := strftime_shape t hy hm hd
  set D := padZero 4 (decDigits t.year) ++ ['-'] ++ padZero 2 (decDigits t.month) ++ ['-'] ++
    padZero 2 (decDigits t.day) with hD
  have h1 : splitHeadT (strftime_ts t) = D.asString := by
    unfold splitHeadT
    rw [hts, takeWhile_append_stop D R (fun c hc => by simpa using hmem c hc) (by simp)]
  have h2 : (strftime_ts t).toList.take 10 = D := by
    rw [hts]
    exact List.take_left' hlen
  rw [h1, h2]

/-! ## Normalizer fixed-point lemmas -/

theorem rebuildEntry_fix {c e : Json} (h : rebuildEntry c = .ok e) :
    rebuildEntry e = .ok e := by
  cases c with
  | obj ckvs =>
      have h' : (do
          let dn ← pyGetAttr ((lookupFirst ckvs "author").getD (.obj [])) "displayName"
          let ea ← pyGetAttr ((lookupFirst ckvs "author").getD (.obj [])) "emailAddress"
          let body ← pyGetAttr (.obj ckvs) "body"
          let created ← pyGetAttr (.obj ckvs) "created"
          let updated ← pyGetAttr (.obj ckvs) "updated"
          .ok (.obj [("author", .obj [("displayName", dn), ("emailAddress", ea)]),
                     ("body", body), ("created", created), ("updated", updated)])
          : Except PyError Json) = .ok e := h
      rcases hA : (lookupFirst ckvs "author").getD (.obj []) with _ | b | n | s | xs | akvs <;>
        rw [hA] at h'
      case obj =>
        have h2 : (Except.ok (Json.obj
            [("author", .obj [("displayName", (lookupFirst akvs "displayName").getD .null),
                              ("emailAddress", (lookupFirst akvs "emailAddress").getD .null)]),
             ("body", (lookupFirst ckvs "body").getD .null),
             ("created", (lookupFirst ckvs "created").getD .null),
             ("updated", (lookupFirst ckvs "updated").getD .null)])
            : Except PyError Json) = .ok e := h'
        injection h2 with h3
        subst h3
        rfl
      all_goals exact Except.noConfusion h'
  | null => exact Except.noConfusion h
  | bool b => exact Except.noConfusion h
  | num n => exact Except.noConfusion h
  | str s => exact Except.noConfusion h
  | arr xs => exact Except.noConfusion h

theorem rebuildEntries_fix : ∀ {l out : List Json},
    rebuildEntries l = .ok out → rebuildEntries out = .ok out := by
  intro l
  induction l with
  | nil =>
      intro out h
      have h' : (Except.ok ([] : List Json) : Except PyError (List Json)) = .ok out := h
      injection h' with h2
      subst h2
      rfl
  | cons c rest ih =>
      intro out h
      have h0 : (do
          let e ← rebuildEntry c
          let tail ← rebuildEntries rest
          (.ok (e :: tail) : Except PyError (List Json))) = .ok out := h
      rcases he : rebuildEntry c with err | e <;> rw [he] at h0
      · exact Except.noConfusion h0
      have h1 : (do
          let tail ← rebuildEntries rest
          (.ok (e :: tail) : Except PyError (List Json))) = .ok out := h0
      rcases ht : rebuildEntries rest with err | tail <;> rw [ht] at h1
      · exact Except.noConfusion h1
      have h2 : (Except.ok (e :: tail) : Except PyError (List Json)) = .ok out := h1
      injection h2 with h3
      subst h3
      show (do
        let e' ← rebuildEntry e
        let tail' ← rebuildEntries tail
        (.ok (e' :: tail') : Except PyError (List Json))) = .ok (e :: tail)
      rw [rebuildEntry_fix he, ih ht]
      rfl

theorem rebuildComment_fix {kvs : List (String × Json)} {c : Json}
    (h : rebuildComment kvs = .ok c) :
    ∃ entries, c = .obj [("comments", .arr entries)] ∧
      rebuildComment [("comments", .arr entries)] = .ok c := by
  have h0 : (do
      let elems ← iterElems ((lookupFirst kvs "comments").getD (.arr []))
      let entries ← rebuildEntries elems
      (.ok (.obj [("comments", .arr entries)]) : Except PyError Json)) = .ok c := h
  rcases hit : iterElems ((lookupFirst kvs "comments").getD (.arr [])) with err | elems <;>
    rw [hit] at h0
  · exact Except.noConfusion h0
  have h1 : (do
      let entries ← rebuildEntries elems
      (.ok (.obj [("comments", .arr entries)]) : Except PyError Json)) = .ok c := h0
  rcases hre : rebuildEntries elems with err | entries <;> rw [hre] at h1
  · exact Except.noConfusion h1
  have h2 : (Except.ok (Json.obj [("comments", .arr entries)]) : Except PyError Json) = .ok c := h1
  injection h2 with h3
  subst h3
  refine ⟨entries, rfl, ?_⟩
  show (do
      let entries' ← rebuildEntries entries
      (.ok (.obj [("comments", .arr entries')]) : Except PyError Json)) =
    .ok (.obj [("comments", .arr entries)])
  rw [rebuildEntries_fix hre]
  rfl

theorem processField_fix {k : String} {v v' : Json}
    (h : processField k v = .ok (some v')) : processField k v' = .ok (some v') := by
  by_cases hk : relevant_subfields.contains k = true
  case neg =>
      have h0 : (Except.ok (none : Option Json) : Except PyError (Option Json)) =
          .ok (some v') := by
        unfold processField at h
        rwa [if_neg hk] at h
      injection h0 with h1
      exact Option.noConfusion h1
  case pos =>
      have hmain := h
      unfold processField at hmain
      rw [if_pos hk] at hmain
      rcases v with _ | b | n | s | xs | kvs
      case null =>
        have h0 : (Except.ok (some Json.null) : Except PyError (Option Json)) = .ok (some v') := hmain
        injection h0 with h1
        injection h1 with h2
        subst h2
        exact h
      case bool =>
        have h0 : (Except.ok (some (Json.bool b)) : Except PyError (Option Json)) = .ok (some v') := hmain
        injection h0 with h1
        injection h1 with h2
        subst h2
        exact h
      case num =>
        have h0 : (Except.ok (some (Json.num n)) : Except PyError (Option Json)) = .ok (some v') := hmain
        injection h0 with h1
        injection h1 with h2
        subst h2
        exact h
      case str =>
        have h0 : (Except.ok (some (Json.str s)) : Except PyError (Option Json)) = .ok (some v') := hmain
        injection h0 with h1
        injection h1 with h2
        subst h2
        exact h
      case arr =>
        have h0 : (Except.ok (some (Json.arr xs)) : Except PyError (Option Json)) = .ok (some v') := hmain
        injection h0 with h1
        injection h1 with h2
        subst h2
        exact h
      case obj =>
        rcases hnw : nestedWhitelist k with _ | allowed <;> rw [hnw] at hmain
        · have h0 : (if k = "comment" then
              (do let c ← rebuildComment kvs
                  (.ok (some c) : Except PyError (Option Json)))
              else .ok (some (Json.obj kvs))) = .ok (some v') := hmain
          by_cases hc : k = "comment"
          · subst hc
            rw [if_pos rfl] at h0
            rcases hrc : rebuildComment kvs with err | c <;> rw [hrc] at h0
            · exact Except.noConfusion h0
            have h1 : (Except.ok (some c) : Except PyError (Option Json)) = .ok (some v') := h0
            injection h1 with h2
            injection h2 with h3
            subst h3
            obtain ⟨entries, hceq, hfix⟩ := rebuildComment_fix hrc
            subst hceq
            show (do let c2 ← rebuildComment [("comments", .arr entries)]
                     (.ok (some c2) : Except PyError (Option Json))) =
              .ok (some (.obj [("comments", .arr entries)]))
            rw [hfix]
            rfl
          · rw [if_neg hc] at h0
            have h1 : (Except.ok (some (Json.obj kvs)) : Except PyError (Option Json)) =
              .ok (some v') := h0
            injection h1 with h2
            injection h2 with h3
            subst h3
            exact h
        · have h0 : (Except.ok (some (Json.obj
              (kvs.filter (fun kv => allowed.contains kv.1)))) : Except PyError (Option Json)) =
            .ok (some v') := hmain
          injection h0 with h1
          injection h1 with h2
          subst h2
          have hff : (kvs.filter (fun kv : String × Json => allowed.contains kv.1)).filter
              (fun kv : String × Json => allowed.contains kv.1) =
              kvs.filter (fun kv : String × Json => allowed.contains kv.1) :=
            List.filter_eq_self.mpr (fun a ha => (List.mem_filter.mp ha).2)
          show processField k (.obj (kvs.filter (fun kv : String × Json => allowed.contains kv.1))) = _
          unfold processField
          rw [if_pos hk]
          show (match nestedWhitelist k with
            | some allowed' =>
                (.ok (some (.obj ((kvs.filter (fun kv : String × Json => allowed.contains kv.1)).filter
                  (fun kv : String × Json => allowed'.contains kv.1)))) : Except PyError (Option Json))
            | none =>
                if k = "comment" then do
                  let c ← rebuildComment (kvs.filter (fun kv : String × Json => allowed.contains kv.1))
                  .ok (some c)
                else .ok (some (.obj (kvs.filter (fun kv : String × Json => allowed.contains kv.1))))) = _
          rw [hnw]
          show (Except.ok (some (Json.obj
              ((kvs.filter (fun kv : String × Json => allowed.contains kv.1)).filter
                (fun kv : String × Json => allowed.contains kv.1)))) : Except PyError (Option Json)) = _
          rw [hff]



theorem processField_contains_true {k : String} {v v' : Json}
    (h : processField k v = .ok (some v')) :
    relevant_subfields.contains k = true := by
  by_cases hk : relevant_subfields.contains k = true
  · exact hk
  · exfalso
    unfold processField at h
    rw [if_neg hk] at h
    injection h with h1
    exact Option.noConfusion h1

theorem filterFields_fix : ∀ {kvs out : List (String × Json)},
    filterFields kvs = .ok out → filterFields out = .ok out := by
  intro kvs
  induction kvs with
  | nil =>
      intro out h
      have h' : (Except.ok ([] : List (String × Json)) :
        Except PyError (List (String × Json))) = .ok out := h
      injection h' with h2
      subst h2
      rfl
  | cons kv rest ih =>
      intro out h
      obtain ⟨k, v⟩ := kv
      have h0 : (do
          let r ← processField k v
          let tail ← filterFields rest
          (.ok (match r with | none => tail | some v' => (k, v') :: tail) :
            Except PyError (List (String × Json)))) = .ok out := h
      rcases hp : processField k v with err | ov <;> rw [hp] at h0
      · exact Except.noConfusion h0
      rcases ov with _ | v'
      · have h1 : (do
            let tail ← filterFields rest
            (.ok tail : Except PyError (List (String × Json)))) = .ok out := h0
        rcases ht : filterFields rest with err | tail <;> rw [ht] at h1
        · exact Except.noConfusion h1
        have h2 : (Except.ok tail : Except PyError (List (String × Json))) = .ok out := h1
        injection h2 with h3
        subst h3
        exact ih ht
      · have h1 : (do
            let tail ← filterFields rest
            (.ok ((k, v') :: tail) : Except PyError (List (String × Json)))) = .ok out := h0
        rcases ht : filterFields rest with err | tail <;> rw [ht] at h1
        · exact Except.noConfusion h1
        have h2 : (Except.ok ((k, v') :: tail) :
          Except PyError (List (String × Json))) = .ok out := h1
        injection h2 with h3
        subst h3
        show (do
            let r ← processField k v'
            let tail' ← filterFields tail
            (.ok (match r with | none => tail' | some v2 => (k, v2) :: tail') :
              Except PyError (List (String × Json)))) = .ok ((k, v') :: tail)
        rw [processField_fix hp, ih ht]
        rfl

theorem filterFields_mem : ∀ {kvs out : List (String × Json)},
    filterFields kvs = .ok out → ∀ kv ∈ out,
      relevant_subfields.contains kv.1 = true ∧
      ∃ v0, (kv.1, v0) ∈ kvs ∧ processField kv.1 v0 = .ok (some kv.2) := by
  intro kvs
  induction kvs with
  | nil =>
      intro out h kv hkv
      have h' : (Except.ok ([] : List (String × Json)) :
        Except PyError (List (String × Json))) = .ok out := h
      injection h' with h2
      subst h2
      exact absurd hkv (List.not_mem_nil _)
  | cons kv0 rest ih =>
      intro out h kv hkv
      obtain ⟨k, v⟩ := kv0
      have h0 : (do
          let r ← processField k v
          let tail ← filterFields rest
          (.ok (match r with | none => tail | some v' => (k, v') :: tail) :
            Except PyError (List (String × Json)))) = .ok out := h
      rcases hp : processField k v with err | ov <;> rw [hp] at h0
      · exact Except.noConfusion h0
      rcases ov with _ | v'
      · have h1 : (do
            let tail ← filterFields rest
            (.ok tail : Except PyError (List (String × Json)))) = .ok out := h0
        rcases ht : filterFields rest with err | tail <;> rw [ht] at h1
        · exact Except.noConfusion h1
        have h2 : (Except.ok tail : Except PyError (List (String × Json))) = .ok out := h1
        injection h2 with h3
        subst h3
        obtain ⟨hc, v0, hv0, hpf⟩ := ih ht kv hkv
        exact ⟨hc, v0, List.mem_cons_of_mem _ hv0, hpf⟩
      · have h1 : (do
            let tail ← filterFields rest
            (.ok ((k, v') :: tail) : Except PyError (List (String × Json)))) = .ok out := h0
        rcases ht : filterFields rest with err | tail <;> rw [ht] at h1
        · exact Except.noConfusion h1
        have h2 : (Except.ok ((k, v') :: tail) :
          Except PyError (List (String × Json))) = .ok out := h1
        injection h2 with h3
        subst h3
        rcases List.mem_cons.mp hkv with h4 | h4
        · subst h4
          exact ⟨processField_contains_true hp, v, List.mem_cons_self _ _, hp⟩
        · obtain ⟨hc, v0, hv0, hpf⟩ := ih ht kv h4
          exact ⟨hc, v0, List.mem_cons_of_mem _ hv0, hpf⟩

theorem filter_relevant_fields_fix : ∀ (r v : Json),
    filter_relevant_fields r = .ok v → filter_relevant_fields v = .ok v := by
  intro r v h
  rcases r with _ | b | n | s | xs | kvs
  case null => exact Except.noConfusion h
  case bool => exact Except.noConfusion h
  case num => exact Except.noConfusion h
  case str => exact Except.noConfusion h
  case arr => exact Except.noConfusion h
  case obj =>
    have h0 : (match lookupFirst (kvs.filter
          (fun kv : String × Json => relevant_fields.contains kv.1)) "fields" with
        | none => (.ok (.obj (kvs.filter
            (fun kv : String × Json => relevant_fields.contains kv.1))) : Except PyError Json)
        | some fv => do
            let fkvs ← asObj fv
            let ffields ← filterFields fkvs
            .ok (.obj (updateFirst (kvs.filter
              (fun kv : String × Json => relevant_fields.contains kv.1))
              "fields" (.obj ffields)))) = .ok v := h
    rcases hlf : lookupFirst (kvs.filter
        (fun kv : String × Json => relevant_fields.contains kv.1)) "fields"
      with _ | fv <;> rw [hlf] at h0
    · have h1 : (Except.ok (Json.obj (kvs.filter
          (fun kv : String × Json => relevant_fields.contains kv.1))) :
        Except PyError Json) = .ok v := h0
      injection h1 with h2
      subst h2
      have hself : (kvs.filter (fun kv : String × Json => relevant_fields.contains kv.1)).filter
            (fun kv : String × Json => relevant_fields.contains kv.1) =
          kvs.filter (fun kv : String × Json => relevant_fields.contains kv.1) :=
        List.filter_eq_self.mpr (fun a ha => (List.mem_filter.mp ha).2)
      show (match lookupFirst ((kvs.filter
            (fun kv : String × Json => relevant_fields.contains kv.1)).filter
            (fun kv : String × Json => relevant_fields.contains kv.1)) "fields" with
          | none => (.ok (.obj ((kvs.filter
              (fun kv : String × Json => relevant_fields.contains kv.1)).filter
              (fun kv : String × Json => relevant_fields.contains kv.1))) : Except PyError Json)
          | some fv => do
              let fkvs ← asObj fv
              let ffields ← filterFields fkvs
              .ok (.obj (updateFirst ((kvs.filter
                (fun kv : String × Json => relevant_fields.contains kv.1)).filter
                (fun kv : String × Json => relevant_fields.contains kv.1))
                "fields" (.obj ffields)))) = _
      rw [hself, hlf]
    · rcases fv with _ | b2 | n2 | s2 | xs2 | fkvs
      case null => exact Except.noConfusion h0
      case bool => exact Except.noConfusion h0
      case num => exact Except.noConfusion h0
      case str => exact Except.noConfusion h0
      case arr => exact Except.noConfusion h0
      case obj =>
        have h1 : (do
            let ffields ← filterFields fkvs
            (.ok (.obj (updateFirst (kvs.filter
              (fun kv : String × Json => relevant_fields.contains kv.1))
              "fields" (.obj ffields))) : Except PyError Json)) = .ok v := h0
        rcases hff : filterFields fkvs with err | ffields <;> rw [hff] at h1
        · exact Except.noConfusion h1
        have h2 : (Except.ok (Json.obj (updateFirst
            (kvs.filter (fun kv : String × Json => relevant_fields.contains kv.1))
            "fields" (.obj ffields))) : Except PyError Json) = .ok v := h1
        injection h2 with h3
        subst h3
        set L := updateFirst (kvs.filter
          (fun kv : String × Json => relevant_fields.contains kv.1)) "fields"
          (.obj ffields) with hL
        have hLP : L.filter (fun kv : String × Json => relevant_fields.contains kv.1) = L := by
          refine List.filter_eq_self.mpr (fun a ha => ?_)
          rcases mem_updateFirst ha with h4 | h4
          · exact (List.mem_filter.mp h4).2
          · subst h4
            show relevant_fields.contains "fields" = true
            rfl
        have hlook : lookupFirst L "fields" = some (.obj ffields) :=
          lookupFirst_updateFirst_self _ _ _
        have hffx : filterFields ffields = .ok ffields := filterFields_fix hff
        have hUU : updateFirst L "fields" (.obj ffields) = L := by
          rw [hL]
          exact updateFirst_idem _ _ _
        show (match lookupFirst (L.filter
            (fun kv : String × Json => relevant_fields.contains kv.1)) "fields" with
          | none => (.ok (.obj (L.filter
              (fun kv : String × Json => relevant_fields.contains kv.1))) : Except PyError Json)
          | some fv2 => do
              let fkvs2 ← asObj fv2
              let ffields2 ← filterFields fkvs2
              .ok (.obj (updateFirst (L.filter
                (fun kv : String × Json => relevant_fields.contains kv.1))
                "fields" (.obj ffields2)))) = .ok (.obj L)
        rw [hLP, hlook]
        show (do
            let ffields2 ← filterFields ffields
            (.ok (.obj (updateFirst L "fields" (.obj ffields2))) : Except PyError Json)) =
          .ok (.obj L)
        rw [hffx]
        show (Except.ok (Json.obj (updateFirst L "fields" (.obj ffields))) :
          Except PyError Json) = .ok (.obj L)
        rw [hUU]



theorem ok_bind {ε α β : Type} (a : α) (f : α → Except ε β) :
    (Except.ok a : Except ε α) >>= f = f a := rfl

theorem lookupFirst_mem : ∀ {l : List (String × Json)} {k : String} {v : Json},
    lookupFirst l k = some v → (k, v) ∈ l := by
  intro l
  induction l with
  | nil => intro k v h; exact Option.noConfusion h
  | cons kv rest ih =>
      intro k v h
      obtain ⟨k', v'⟩ := kv
      by_cases hk : k' = k
      · subst hk
        rw [lookupFirst, if_pos rfl] at h
        injection h with h1
        subst h1
        exact List.mem_cons_self _ _
      · rw [lookupFirst, if_neg hk] at h
        exact List.mem_cons_of_mem _ (ih h)

theorem processField_nested {k : String} {v0 v : Json} {allowed : List String}
    (h : processField k v0 = .ok (some v)) (hnw : nestedWhitelist k = some allowed) :
    ∀ nkvs, v = .obj nkvs → ∀ nkv ∈ nkvs, allowed.contains nkv.1 = true := by
  intro nkvs hv nkv hkv
  have hk := processField_contains_true h
  unfold processField at h
  rw [if_pos hk] at h
  rcases v0 with _ | b | n | s | xs | kvs
  case null =>
      have h0 : (Except.ok (some Json.null) : Except PyError (Option Json)) = .ok (some v) := h
      injection h0 with h1
      injection h1 with h2
      subst h2
      exact Json.noConfusion hv
  case bool =>
      have h0 : (Except.ok (some (Json.bool b)) : Except PyError (Option Json)) = .ok (some v) := h
      injection h0 with h1
      injection h1 with h2
      subst h2
      exact Json.noConfusion hv
  case num =>
      have h0 : (Except.ok (some (Json.num n)) : Except PyError (Option Json)) = .ok (some v) := h
      injection h0 with h1
      injection h1 with h2
      subst h2
      exact Json.noConfusion hv
  case str =>
      have h0 : (Except.ok (some (Json.str s)) : Except PyError (Option Json)) = .ok (some v) := h
      injection h0 with h1
      injection h1 with h2
      subst h2
      exact Json.noConfusion hv
  case arr =>
      have h0 : (Except.ok (some (Json.arr xs)) : Except PyError (Option Json)) = .ok (some v) := h
      injection h0 with h1
      injection h1 with h2
      subst h2
      exact Json.noConfusion hv
  case obj =>
      rw [hnw] at h
      have h0 : (Except.ok (some (Json.obj (kvs.filter
          (fun kv : String × Json => allowed.contains kv.1)))) :
        Except PyError (Option Json)) = .ok (some v) := h
      injection h0 with h1
      injection h1 with h2
      subst h2
      injection hv with h3
      subst h3
      exact (List.mem_filter.mp hkv).2

theorem rebuildEntry_absent_null {ckvs : List (String × Json)} {e : Json}
    (h : rebuildEntry (.obj ckvs) = .ok e)
    (ha : lookupFirst ckvs "author" = none) (hb : lookupFirst ckvs "body" = none)
    (hc : lookupFirst ckvs "created" = none) (hu : lookupFirst ckvs "updated" = none) :
    e = .obj [("author", .obj [("displayName", .null), ("emailAddress", .null)]),
              ("body", .null), ("created", .null), ("updated", .null)] := by
  have h0 : (do
      let dn ← pyGetAttr ((lookupFirst ckvs "author").getD (.obj [])) "displayName"
      let ea ← pyGetAttr ((lookupFirst ckvs "author").getD (.obj [])) "emailAddress"
      let body ← pyGetAttr (.obj ckvs) "body"
      let created ← pyGetAttr (.obj ckvs) "created"
      let updated ← pyGetAttr (.obj ckvs) "updated"
      .ok (.obj [("author", .obj [("displayName", dn), ("emailAddress", ea)]),
                 ("body", body), ("created", created), ("updated", updated)])
      : Except PyError Json) = .ok e := h
  rw [ha] at h0
  have h1 : (Except.ok (Json.obj
      [("author", .obj [("displayName", Json.null), ("emailAddress", Json.null)]),
       ("body", (lookupFirst ckvs "body").getD .null),
       ("created", (lookupFirst ckvs "created").getD .null),
       ("updated", (lookupFirst ckvs "updated").getD .null)]) : Except PyError Json) = .ok e := h0
  rw [hb, hc, hu] at h1
  injection h1 with h2
  exact h2.symm

theorem filter_shape : ∀ (r v : Json), filter_relevant_fields r = .ok v →
    ∃ rkvs okvs, r = .obj rkvs ∧ v = .obj okvs ∧
      ((lookupFirst (rkvs.filter
          (fun kv : String × Json => relevant_fields.contains kv.1)) "fields" = none ∧
        okvs = rkvs.filter (fun kv : String × Json => relevant_fields.contains kv.1)) ∨
       (∃ fkvs ffields, lookupFirst (rkvs.filter
          (fun kv : String × Json => relevant_fields.contains kv.1)) "fields" =
            some (.obj fkvs) ∧
        filterFields fkvs = .ok ffields ∧
        okvs = updateFirst (rkvs.filter
          (fun kv : String × Json => relevant_fields.contains kv.1)) "fields"
          (.obj ffields))) := by
  intro r v h
  rcases r with _ | b | n | s | xs | kvs
  case null => exact Except.noConfusion h
  case bool => exact Except.noConfusion h
  case num => exact Except.noConfusion h
  case str => exact Except.noConfusion h
  case arr => exact Except.noConfusion h
  case obj =>
    have h0 : (match lookupFirst (kvs.filter
          (fun kv : String × Json => relevant_fields.contains kv.1)) "fields" with
        | none => (.ok (.obj (kvs.filter
            (fun kv : String × Json => relevant_fields.contains kv.1))) : Except PyError Json)
        | some fv => do
            let fkvs ← asObj fv
            let ffields ← filterFields fkvs
            .ok (.obj (updateFirst (kvs.filter
              (fun kv : String × Json => relevant_fields.contains kv.1))
              "fields" (.obj ffields)))) = .ok v := h
    rcases hlf : lookupFirst (kvs.filter
        (fun kv : String × Json => relevant_fields.contains kv.1)) "fields"
      with _ | fv <;> rw [hlf] at h0
    · have h1 : (Except.ok (Json.obj (kvs.filter
          (fun kv : String × Json => relevant_fields.contains kv.1))) :
        Except PyError Json) = .ok v := h0
      injection h1 with h2
      exact ⟨kvs, _, rfl, h2.symm, Or.inl ⟨hlf, rfl⟩⟩
    · rcases fv with _ | b2 | n2 | s2 | xs2 | fkvs
      case null => exact Except.noConfusion h0
      case bool => exact Except.noConfusion h0
      case num => exact Except.noConfusion h0
      case str => exact Except.noConfusion h0
      case arr => exact Except.noConfusion h0
      case obj =>
        have h1 : (do
            let ffields ← filterFields fkvs
            (.ok (.obj (updateFirst (kvs.filter
              (fun kv : String × Json => relevant_fields.contains kv.1))
              "fields" (.obj ffields))) : Except PyError Json)) = .ok v := h0
        rcases hff : filterFields fkvs with err | ffields <;> rw [hff] at h1
        · exact Except.noConfusion h1
        have h2 : (Except.ok (Json.obj (updateFirst
            (kvs.filter (fun kv : String × Json => relevant_fields.contains kv.1))
            "fields" (.obj ffields))) : Except PyError Json) = .ok v := h1
        injection h2 with h3
        exact ⟨kvs, _, rfl, h3.symm, Or.inr ⟨fkvs, ffields, hlf, hff, rfl⟩⟩

/-- Unrolling of one full page of the pagination loop: a page of at least
`max_results` summaries advances the offset and continues. -/
theorem get_all_issues_loop_step {f : Nat → PageFetchResult} {fuel st st2 : Nat}
    {acc : List Json} {tr : List Nat} {page : List Json} {rest : List (String × Json)}
    (hf : f st = .response (.obj (("issues", .arr page) :: rest)))
    (hlen : ¬ page.length < max_results)
    (hst : st2 = st + max_results) :
    get_all_issues_loop f (fuel + 1) st acc tr =
      get_all_issues_loop f fuel st2 (acc ++ page) (tr ++ [st]) := by
  subst hst
  rw [get_all_issues_loop, hf]
  show (if page.length < max_results
      then some (.ok (acc ++ page, tr ++ [st]))
      else get_all_issues_loop f fuel (st + max_results) (acc ++ page) (tr ++ [st])) = _
  rw [if_neg hlen]

/-- Unrolling of the final, short page: fewer than `max_results` summaries
stop the loop. -/
theorem get_all_issues_loop_last {f : Nat → PageFetchResult} {fuel st : Nat}
    {acc : List Json} {tr : List Nat} {page : List Json} {rest : List (String × Json)}
    (hf : f st = .response (.obj (("issues", .arr page) :: rest)))
    (hlen : page.length < max_results) :
    get_all_issues_loop f (fuel + 1) st acc tr = some (.ok (acc ++ page, tr ++ [st])) := by
  rw [get_all_issues_loop, hf]
  show (if page.length < max_results
      then some (.ok (acc ++ page, tr ++ [st]))
      else get_all_issues_loop f fuel (st + max_results) (acc ++ page) (tr ++ [st])) = _
  rw [if_pos hlen]



theorem jira_webhook_reduce_success {body issue iid d payload : Json} {ek : Option String}
    {fetchFn : Json → Option Json} {pOk : Bool} {base : String} {now : Instant}
    (hbody : pyContains body "issue" = .ok true)
    (hissue : pyGetItem body "issue" = .ok issue)
    (hid : pyGetItem issue "id" = .ok iid)
    (hf : fetchFn iid = some d)
    (ht : truthy d = true)
    (hp : prepare_data_for_pulsar base d (ek.getD "Unknown Event") now = .ok payload) :
    jira_webhook true body ek fetchFn pOk base now =
      .ok ((200, "success"), [.fetch iid, .publish payload]) := by
  simp [jira_webhook, hbody, hissue, hid, hf, ht, hp, ok_bind]

theorem jira_webhook_reduce_400 {body : Json} {ek : Option String}
    {fetchFn : Json → Option Json} {pOk : Bool} {base : String} {now : Instant}
    (hbody : pyContains body "issue" = .ok false) :
    jira_webhook true body ek fetchFn pOk base now =
      .ok ((400, "No issue data found in payload"), []) := by
  simp [jira_webhook, hbody, ok_bind]

/-! ## Claim theorems -/

/-- C1 (counterexample): a webhook request whose fetch succeeds but whose
publish fails (`publishOk = false`) still receives HTTP 200 `success` —
`send_to_pulsar` swallows the exception, so the claim that a failed
publish yields a failure response is false. -/
theorem C1_counterexample :
    jira_webhook true (.obj [("issue", .obj [("id", .str "10001")])]) none
      (fun _ => some (.obj [("id", .str "10001"), ("key", .str "TES-1")])) false
      "http://jira" ⟨2024, 1, 2, 3, 4, 5, 0⟩ =
    .ok ((200, "success"),
      [.fetch (.str "10001"),
       .publish (.obj [("id", .str "10001"), ("key", .str "TES-1"),
         ("timestamp", .str "2024-01-02T03:04:05.000+0000"),
         ("date", .str "2024-01-02"),
         ("event_type", .str "Unknown Event"),
         ("url", .str "http://jira/browse/TES-1")])]) := rfl

/-- C1 (amended): on the webhook path the HTTP response never reflects the
publish outcome: whenever the body carries `issue.id`, the detail fetch
returns a truthy issue and the envelope build succeeds, the handler
returns 200 `success` for every broker outcome `pOk` — publish failures
are only caught and logged inside `send_to_pulsar`. -/
theorem C1_theorem : ∀ (pOk : Bool) (body issue iid d payload : Json) (ek : Option String)
    (fetchFn : Json → Option Json) (base : String) (now : Instant),
    pyContains body "issue" = .ok true →
    pyGetItem body "issue" = .ok issue →
    pyGetItem issue "id" = .ok iid →
    fetchFn iid = some d →
    truthy d = true →
    prepare_data_for_pulsar base d (ek.getD "Unknown Event") now = .ok payload →
    jira_webhook true body ek fetchFn pOk base now =
      .ok ((200, "success"), [.fetch iid, .publish payload]) :=
  fun _ _ _ _ _ _ _ _ _ _ h1 h2 h3 h4 h5 h6 =>
    jira_webhook_reduce_success h1 h2 h3 h4 h5 h6

/-- C1 (witness): the amended theorem applied at a concrete request with
a failing broker. -/
theorem C1_witness :
    jira_webhook true (.obj [("issue", .obj [("id", .str "7")])]) (some "jira:issue_updated")
      (fun _ => some (.obj [("id", .str "7")])) false
      "http://jira" ⟨2024, 6, 30, 23, 59, 59, 999999⟩ =
    .ok ((200, "success"),
      [.fetch (.str "7"),
       .publish (.obj [("id", .str "7"),
         ("timestamp", .str "2024-06-30T23:59:59.999+0000"),
         ("date", .str "2024-06-30"),
         ("event_type", .str "jira:issue_updated"),
         ("url", .str "http://jira/browse/")])]) :=
  C1_theorem false (.obj [("issue", .obj [("id", .str "7")])]) (.obj [("id", .str "7")])
    (.str "7") (.obj [("id", .str "7")])
    (.obj [("id", .str "7"),
      ("timestamp", .str "2024-06-30T23:59:59.999+0000"),
      ("date", .str "2024-06-30"),
      ("event_type", .str "jira:issue_updated"),
      ("url", .str "http://jira/browse/")])
    (some "jira:issue_updated")
    (fun _ => some (.obj [("id", .str "7")])) "http://jira" ⟨2024, 6, 30, 23, 59, 59, 999999⟩
    rfl rfl rfl rfl rfl rfl

/-- C2 (counterexample): the `statusCategory` nested whitelist is dead
code — `statusCategory` occurs inside `status`, which is copied verbatim,
so the non-whitelisted attribute `self` survives in the output even
though the whitelist for `statusCategory` is `{key, name, colorName}`. -/
theorem C2_counterexample :
    filter_relevant_fields (.obj [("fields", .obj [("status", .obj
        [("statusCategory", .obj [("key", .str "new"), ("self", .str "https://x")])])])]) =
      .ok (.obj [("fields", .obj [("status", .obj
        [("statusCategory", .obj [("key", .str "new"), ("self", .str "https://x")])])])]) ∧
    nestedWhitelist "statusCategory" = some ["key", "name", "colorName"] :=
  ⟨rfl, rfl⟩

/-- C2 (amended): the whitelists hold at the levels the code actually
prunes: every top-level key of the output is in `{id, key, fields}`,
every key of the output `fields` is in the twelve-entry subfield
whitelist, and every retained subfield that carries a nested whitelist
(`creator`, `reporter`, `project`, `issuetype` — and `statusCategory`,
which can never match because it is not a retained subfield) and whose
output value is an object holds only whitelisted attributes.  Deeper
levels (e.g. `statusCategory` inside `status`) are not pruned. -/
theorem C2_theorem : ∀ (r v : Json), filter_relevant_fields r = .ok v →
    ∃ okvs, v = .obj okvs ∧
      (∀ kv ∈ okvs, kv.1 ∈ relevant_fields) ∧
      (∀ fv, lookupFirst okvs "fields" = some fv →
        ∃ fkvs, fv = .obj fkvs ∧
          (∀ kv ∈ fkvs, kv.1 ∈ relevant_subfields) ∧
          (∀ kv ∈ fkvs, ∀ allowed, nestedWhitelist kv.1 = some allowed →
            ∀ nkvs, kv.2 = .obj nkvs → ∀ nkv ∈ nkvs, nkv.1 ∈ allowed)) := by
  intro r v h
  obtain ⟨rkvs, okvs, hr, hv, hcase⟩ := filter_shape r v h
  subst hv
  refine ⟨okvs, rfl, ?_, ?_⟩
  · intro kv hkv
    rcases hcase with ⟨hnone, rfl⟩ | ⟨fkvs, ffields, hsome, hff, rfl⟩
    · have := (List.mem_filter.mp hkv).2
      simpa using this
    · rcases mem_updateFirst hkv with h4 | h4
      · have := (List.mem_filter.mp h4).2
        simpa using this
      · subst h4
        show ("fields" : String) ∈ relevant_fields
        simp [relevant_fields]
  · intro fv hfv
    rcases hcase with ⟨hnone, rfl⟩ | ⟨fkvs, ffields, hsome, hff, rfl⟩
    · rw [hnone] at hfv
      exact Option.noConfusion hfv
    · rw [lookupFirst_updateFirst_self] at hfv
      injection hfv with h5
      subst h5
      refine ⟨ffields, rfl, ?_, ?_⟩
      · intro kv hkv
        have := (filterFields_mem hff kv hkv).1
        simpa using this
      · intro kv hkv allowed hal nkvs hnk nkv hmem
        obtain ⟨_, v0, _, hpf⟩ := filterFields_mem hff kv hkv
        have hnest := processField_nested (by rw [hpf, hnk]) hal nkvs rfl nkv hmem
        simpa using hnest

/-- C2 (witness): the amended theorem applied at a concrete raw issue. -/
theorem C2_witness : ("id" : String) ∈ relevant_fields := by
  obtain ⟨okvs, heq, htop, _⟩ :=
    C2_theorem (.obj [("id", .str "1"), ("junk", .num 3)]) (.obj [("id", .str "1")]) rfl
  injection heq with h1
  subst h1
  exact htop ("id", .str "1") (List.mem_cons_self _ _)


/-- C3 (counterexample): a comment entry lacking `body`, `created`,
`updated` and `author` is rebuilt with all four keys present and bound to
`null` — the keys are not omitted as the claim states. -/
theorem C3_counterexample :
    filter_relevant_fields (.obj [("fields", .obj [("comment", .obj
        [("comments", .arr [.obj []])])])]) =
      .ok (.obj [("fields", .obj [("comment", .obj [("comments", .arr
        [.obj [("author", .obj [("displayName", .null), ("emailAddress", .null)]),
               ("body", .null), ("created", .null), ("updated", .null)]])])])]) := rfl

/-- C3 (amended): outside the comment rebuild no key is fabricated —
every key of the output `fields` object already keyed the source
`fields` object — but each rebuilt comment entry always carries
`author` (with `displayName`/`emailAddress`), `body`, `created` and
`updated`, bound to `null` whenever the source entry lacked them. -/
theorem C3_theorem : ∀ (r v : Json), filter_relevant_fields r = .ok v →
    (∀ okvs fkvs, v = .obj okvs → lookupFirst okvs "fields" = some (.obj fkvs) →
      ∃ rkvs rfkvs, r = .obj rkvs ∧ ("fields", .obj rfkvs) ∈ rkvs ∧
        ∀ kv ∈ fkvs, ∃ v0, (kv.1, v0) ∈ rfkvs) ∧
    (∀ ckvs e, rebuildEntry (.obj ckvs) = .ok e →
      lookupFirst ckvs "author" = none → lookupFirst ckvs "body" = none →
      lookupFirst ckvs "created" = none → lookupFirst ckvs "updated" = none →
      e = .obj [("author", .obj [("displayName", .null), ("emailAddress", .null)]),
                ("body", .null), ("created", .null), ("updated", .null)]) := by
  intro r v h
  constructor
  · intro okvs fkvs hv hlook
    obtain ⟨rkvs, okvs2, hr, hv2, hcase⟩ := filter_shape r v h
    subst hv
    injection hv2 with he
    subst he
    rcases hcase with ⟨hnone, rfl⟩ | ⟨fkvs0, ffields, hsome, hff, rfl⟩
    · rw [hnone] at hlook
      exact Option.noConfusion hlook
    · rw [lookupFirst_updateFirst_self] at hlook
      injection hlook with h5
      injection h5 with h6
      subst h6
      refine ⟨rkvs, fkvs0, hr, ?_, ?_⟩
      · exact (List.mem_filter.mp (lookupFirst_mem hsome)).1
      · intro kv hkv
        obtain ⟨_, v0, hv0, _⟩ := filterFields_mem hff kv hkv
        exact ⟨v0, hv0⟩
  · intro ckvs e he ha hb hc hu
    exact rebuildEntry_absent_null he ha hb hc hu

/-- C3 (witness): the amended theorem applied at a concrete raw issue
with an attribute-free comment entry. -/
theorem C3_witness :
    (Json.obj [("author", .obj [("displayName", .null), ("emailAddress", .null)]),
               ("body", .null), ("created", .null), ("updated", .null)]) =
    .obj [("author", .obj [("displayName", .null), ("emailAddress", .null)]),
          ("body", .null), ("created", .null), ("updated", .null)] :=
  (C3_theorem (.obj []) (.obj []) rfl).2 []
    (.obj [("author", .obj [("displayName", .null), ("emailAddress", .null)]),
           ("body", .null), ("created", .null), ("updated", .null)])
    rfl rfl rfl rfl rfl

/-- C4 (counterexample): a `fields.comment` that is not an object (here a
string) is retained verbatim by the `else` branch, not omitted as the
claim states. -/
theorem C4_counterexample :
    filter_relevant_fields (.obj [("fields", .obj [("comment", .str "not an object")])]) =
      .ok (.obj [("fields", .obj [("comment", .str "not an object")])]) := rfl

/-- C4 (amended): a non-object `comment` value is copied verbatim (it
falls through both `isinstance` guards), and an object `comment` always
yields a `comments` list — fabricated empty when the source object had no
`comments` key. -/
theorem C4_theorem :
    (∀ v : Json, (∀ kvs, v ≠ .obj kvs) → processField "comment" v = .ok (some v)) ∧
    processField "comment" (.obj []) = .ok (some (.obj [("comments", .arr [])])) := by
  constructor
  · intro v hv
    rcases v with _ | b | n | s | xs | kvs
    · rfl
    · rfl
    · rfl
    · rfl
    · rfl
    · exact absurd rfl (hv kvs)
  · rfl

/-- C4 (witness): the amended theorem applied to a concrete string-valued
comment. -/
theorem C4_witness : processField "comment" (.str "hello") = .ok (some (.str "hello")) :=
  C4_theorem.1 (.str "hello") (fun _ h => Json.noConfusion h)

/-- C5 (counterexample): a JSON object body whose `issue` member has no
`id` makes the handler raise `KeyError` out of `data["issue"]["id"]`
instead of returning a 400 rejection. -/
theorem C5_counterexample :
    jira_webhook true (.obj [("issue", .obj [])]) none (fun _ => none) true "b"
      ⟨2024, 1, 1, 0, 0, 0, 0⟩ = .error (.keyError "id") := rfl

/-- C5 (amended): a JSON object body without an `issue` key is rejected
with 400 and no fetch or publish is attempted; but a body whose `issue`
member lacks an `id` (or is not subscriptable) raises an uncaught
exception rather than returning 400. -/
theorem C5_theorem : ∀ (kvs : List (String × Json)) (ek : Option String)
    (fetchFn : Json → Option Json) (pOk : Bool) (base : String) (now : Instant),
    (∀ kv ∈ kvs, kv.1 ≠ "issue") →
    jira_webhook true (.obj kvs) ek fetchFn pOk base now =
      .ok ((400, "No issue data found in payload"), []) := by
  intro kvs ek f pOk base now h
  apply jira_webhook_reduce_400
  show (Except.ok (kvs.any fun kv => kv.1 == "issue") : Except PyError Bool) = .ok false
  have hfalse : (kvs.any fun kv => kv.1 == "issue") = false := by
    rw [List.any_eq_false]
    intro kv hkv
    simpa using h kv hkv
  rw [hfalse]

/-- C5 (witness): the amended theorem applied at a concrete issue-free
body. -/
theorem C5_witness :
    jira_webhook true (.obj [("webhookEvent", .str "ping")]) none (fun _ => none) true "b"
      ⟨2024, 1, 1, 0, 0, 0, 0⟩ = .ok ((400, "No issue data found in payload"), []) :=
  C5_theorem [("webhookEvent", .str "ping")] none (fun _ => none) true "b"
    ⟨2024, 1, 1, 0, 0, 0, 0⟩ (by decide)


/-- C6 (code bug): when page 1 returns a full page of 50 summaries and
page 2 returns HTTP 200 with a JSON object lacking the `issues` key (a
malformed body), `len(data["issues"])` raises `KeyError` — only
`requests.RequestException` is caught — so the run aborts and the 50
accumulated summaries are never processed, contradicting the fail-soft
claim (note the adjacent defensive `data.get("issues", [])` one line
earlier). -/
theorem C6_theorem :
    sync_main (fun st => if st = 0
        then .response (.obj [("issues",
          .arr ((List.range 50).map (fun i => .obj [("id", .num i)]))), ("total", .num 55)])
        else .response (.obj [("error", .str "rate limited")]))
      (fun j => some (.obj [("id", j)])) (fun _ => true) "b" ⟨2024, 1, 1, 0, 0, 0, 0⟩ 3
    = some (.error (.keyError "issues")) := rfl

/-- C7: over a corpus of exactly 127 issues, served in pages of
`max_results = 50` most-recent-first, the pagination loop performs
exactly three page fetches at offsets 0, 50, 100, receives pages of
50, 50 and 27 summaries, stops right after the short page (the server's
`total` field is never consulted), and accumulates the whole corpus. -/
theorem C7_theorem : ∀ (corpus : List Json), corpus.length = 127 →
    (get_all_issues (fun st => .response (.obj
        [("issues", .arr ((corpus.drop st).take max_results)), ("total", .num 127)])) 4 =
      some (.ok (corpus, [0, 50, 100]))) ∧
    ((corpus.drop 0).take max_results).length = 50 ∧
    ((corpus.drop 50).take max_results).length = 50 ∧
    ((corpus.drop 100).take max_results).length = 27 := by
  intro corpus hlen
  have hl0 : ((corpus.drop 0).take max_results).length = 50 := by
    rw [List.length_take, List.length_drop, hlen]
    norm_num [max_results]
  have hl50 : ((corpus.drop 50).take max_results).length = 50 := by
    rw [List.length_take, List.length_drop, hlen]
    norm_num [max_results]
  have hl100 : ((corpus.drop 100).take max_results).length = 27 := by
    rw [List.length_take, List.length_drop, hlen]
    norm_num [max_results]
  refine ⟨?_, hl0, hl50, hl100⟩
  have step1 := @get_all_issues_loop_step
    (fun st => .response (.obj
      [("issues", .arr ((corpus.drop st).take max_results)), ("total", .num 127)]))
    3 0 50 [] [] ((corpus.drop 0).take max_results) [("total", .num 127)] rfl
    (by rw [hl0]; norm_num [max_results])
    (by norm_num [max_results])
  have step2 := @get_all_issues_loop_step
    (fun st => .response (.obj
      [("issues", .arr ((corpus.drop st).take max_results)), ("total", .num 127)]))
    2 50 100 ([] ++ (corpus.drop 0).take max_results) ([] ++ [0])
    ((corpus.drop 50).take max_results) [("total", .num 127)] rfl
    (by rw [hl50]; norm_num [max_results])
    (by norm_num [max_results])
  have step3 := @get_all_issues_loop_last
    (fun st => .response (.obj
      [("issues", .arr ((corpus.drop st).take max_results)), ("total", .num 127)]))
    1 100
    ([] ++ (corpus.drop 0).take max_results ++ (corpus.drop 50).take max_results)
    ([] ++ [0] ++ [50])
    ((corpus.drop 100).take max_results) [("total", .num 127)] rfl
    (by rw [hl100]; norm_num [max_results])
  unfold get_all_issues
  rw [step1, step2, step3]
  have h100 : (corpus.drop 100).take max_results = corpus.drop 100 :=
    List.take_of_length_le (by rw [List.length_drop, hlen]; norm_num [max_results])
  have hsplit : [] ++ (corpus.drop 0).take max_results ++ (corpus.drop 50).take max_results ++
      (corpus.drop 100).take max_results = corpus := by
    rw [h100]
    simp only [List.nil_append, List.append_assoc, List.drop_zero]
    have hdd : corpus.drop 100 = (corpus.drop 50).drop max_results := by
      rw [List.drop_drop]
      norm_num [max_results]
    rw [hdd, List.take_append_drop]
    have h50 : corpus.drop 50 = corpus.drop max_results := by norm_num [max_results]
    rw [h50, List.take_append_drop]
  rw [hsplit]
  norm_num

/-- C7 (witness): the pagination theorem applied to a concrete
127-element corpus. -/
theorem C7_witness :
    (get_all_issues (fun st => .response (.obj
        [("issues", .arr ((((List.range 127).map (fun i => Json.num i)).drop st).take
          max_results)), ("total", .num 127)])) 4 =
      some (.ok ((List.range 127).map (fun i => Json.num i), [0, 50, 100]))) ∧
    ((((List.range 127).map (fun i => Json.num i)).drop 0).take max_results).length = 50 ∧
    ((((List.range 127).map (fun i => Json.num i)).drop 50).take max_results).length = 50 ∧
    ((((List.range 127).map (fun i => Json.num i)).drop 100).take max_results).length = 27 :=
  C7_theorem ((List.range 127).map (fun i => Json.num i)) rfl

/-- C8: in a backfill whose single page carries three summaries, a failed
detail fetch for the second one (the oracle returns `none`, i.e. the
caught request error) skips only that issue: the first and third are
fetched, normalized and published, in order, and the run ends normally. -/
theorem C8_theorem : ∀ (s1 s2 s3 id1 id2 id3 d1 d3 p1 p3 : Json)
    (fetchD : Json → Option Json) (pOk : Json → Bool) (base : String) (now : Instant),
    pyGetItem s1 "id" = .ok id1 → pyGetItem s2 "id" = .ok id2 → pyGetItem s3 "id" = .ok id3 →
    fetchD id1 = some d1 → fetchD id2 = none → fetchD id3 = some d3 →
    truthy d1 = true → truthy d3 = true →
    prepare_data_for_pulsar base d1 "initial_load" now = .ok p1 →
    prepare_data_for_pulsar base d3 "initial_load" now = .ok p3 →
    sync_main (fun st => if st = 0
        then .response (.obj [("issues", .arr [s1, s2, s3])])
        else .requestError)
      fetchD pOk base now 1 = some (.ok [p1, p3]) := by
  intro s1 s2 s3 id1 id2 id3 d1 d3 p1 p3 fetchD pOk base now
    hid1 hid2 hid3 hf1 hf2 hf3 ht1 ht3 hp1 hp3
  have hga : get_all_issues (fun st => if st = 0
      then .response (.obj [("issues", .arr [s1, s2, s3])])
      else .requestError) 1 = some (.ok ([s1, s2, s3], [0])) := by
    unfold get_all_issues
    have hstep := @get_all_issues_loop_last
      (fun st => if st = 0
        then .response (.obj [("issues", .arr [s1, s2, s3])])
        else .requestError)
      0 0 [] [] [s1, s2, s3] []
      (by norm_num) (by norm_num [max_results])
    simpa using hstep
  simp only [sync_main, hga]
  simp [processIssues, hid1, hid2, hid3, hf1, hf2, hf3, ht1, ht3, hp1, hp3, ok_bind]

/-- C8 (witness): the partial-failure theorem applied at a concrete
3-summary batch whose middle fetch fails. -/
theorem C8_witness :
    sync_main (fun st => if st = 0
        then .response (.obj [("issues", .arr [.obj [("id", .num 1)], .obj [("id", .num 2)],
          .obj [("id", .num 3)]])])
        else .requestError)
      (fun j => match j with
        | .num 1 => some (.obj [("id", .num 1)])
        | .num 3 => some (.obj [("id", .num 3)])
        | _ => none)
      (fun _ => true) "b" ⟨2024, 1, 1, 0, 0, 0, 0⟩ 1 =
    some (.ok [
      .obj [("id", .num 1),
        ("timestamp", .str "2024-01-01T00:00:00.000+0000"),
        ("date", .str "2024-01-01"),
        ("event_type", .str "initial_load"),
        ("url", .str "b/browse/")],
      .obj [("id", .num 3),
        ("timestamp", .str "2024-01-01T00:00:00.000+0000"),
        ("date", .str "2024-01-01"),
        ("event_type", .str "initial_load"),
        ("url", .str "b/browse/")]]) :=
  C8_theorem (.obj [("id", .num 1)]) (.obj [("id", .num 2)]) (.obj [("id", .num 3)])
    (.num 1) (.num 2) (.num 3)
    (.obj [("id", .num 1)]) (.obj [("id", .num 3)])
    (.obj [("id", .num 1),
      ("timestamp", .str "2024-01-01T00:00:00.000+0000"),
      ("date", .str "2024-01-01"),
      ("event_type", .str "initial_load"),
      ("url", .str "b/browse/")])
    (.obj [("id", .num 3),
      ("timestamp", .str "2024-01-01T00:00:00.000+0000"),
      ("date", .str "2024-01-01"),
      ("event_type", .str "initial_load"),
      ("url", .str "b/browse/")])
    (fun j => match j with
      | .num 1 => some (.obj [("id", .num 1)])
      | .num 3 => some (.obj [("id", .num 3)])
      | _ => none)
    (fun _ => true) "b" ⟨2024, 1, 1, 0, 0, 0, 0⟩
    rfl rfl rfl rfl rfl rfl rfl rfl rfl rfl

/-- C9: `filter_relevant_fields` is idempotent — every successful output
is a fixed point, so records already in normalized shape pass through
unchanged (and on the error side, `normalize ∘ normalize = normalize`
holds trivially since the first failure propagates). -/
theorem C9_theorem : ∀ (r v : Json), filter_relevant_fields r = .ok v →
    filter_relevant_fields v = .ok v :=
  filter_relevant_fields_fix

/-- C9 (witness): idempotence applied at a concrete raw issue (the junk
key is dropped once and the result is a fixed point). -/
theorem C9_witness :
    filter_relevant_fields (.obj [("id", .str "1"), ("fields", .obj [("summary", .str "s")])]) =
      .ok (.obj [("id", .str "1"), ("fields", .obj [("summary", .str "s")])]) :=
  C9_theorem (.obj [("id", .str "1"), ("junk", .bool true),
      ("fields", .obj [("summary", .str "s"), ("watchers", .num 4)])])
    (.obj [("id", .str "1"), ("fields", .obj [("summary", .str "s")])]) rfl


/-- C10: the envelope invariants — for any raw issue the normalizer
accepts, any base URL, event type and captured instant (with in-range
`datetime` components), `prepare_data_for_pulsar` succeeds and the
output's `date` is `timestamp.split('T')[0]`, which equals the first ten
characters of `timestamp`; `url` is `<base>/browse/<key>`, where an
absent `key` yields `<base>/browse/` without raising. -/
theorem C10_theorem : ∀ (base ev : String) (t : Instant)
    (rkvs : List (String × Json)) (fv : Json),
    filter_relevant_fields (.obj rkvs) = .ok fv →
    (∀ j, lookupFirst rkvs "key" = some j → ∃ s, j = .str s) →
    t.year ≤ 9999 → t.month ≤ 99 → t.day ≤ 99 →
    ∃ out, prepare_data_for_pulsar base (.obj rkvs) ev t = .ok out ∧
      pyGetItem out "timestamp" = .ok (.str (strftime_ts t)) ∧
      pyGetItem out "date" = .ok (.str (splitHeadT (strftime_ts t))) ∧
      splitHeadT (strftime_ts t) = ((strftime_ts t).toList.take 10).asString ∧
      pyGetItem out "url" = .ok (.str (base ++ "/browse/" ++
        (match lookupFirst rkvs "key" with
         | some (.str s) => s
         | _ => ""))) := by
  intro base ev t rkvs fv hfil hkey hy hm hd
  obtain ⟨rkvs2, okvs, hr, hfv, _⟩ := filter_shape _ _ hfil
  subst hfv
  have hkd : ∃ ks, (lookupFirst rkvs "key").getD (.str "") = .str ks ∧
      ks = (match lookupFirst rkvs "key" with | some (.str s) => s | _ => "") := by
    rcases hk : lookupFirst rkvs "key" with _ | j
    · exact ⟨"", rfl, rfl⟩
    · obtain ⟨s, rfl⟩ := hkey j hk
      exact ⟨s, rfl, rfl⟩
  obtain ⟨ks, hks, hksdef⟩ := hkd
  have hprep : prepare_data_for_pulsar base (.obj rkvs) ev t = .ok (.obj
      (updateFirst (updateFirst (updateFirst (updateFirst okvs "timestamp"
        (.str (strftime_ts t))) "date" (.str (splitHeadT (strftime_ts t))))
        "event_type" (.str ev)) "url" (.str (base ++ "/browse/" ++ ks)))) := by
    simp only [prepare_data_for_pulsar, hfil, ok_bind, jsonSetItem, pyGetDefault, hks]
  refine ⟨_, hprep, ?_, ?_, strftime_date_take10 t hy hm hd, ?_⟩
  · simp only [pyGetItem]
    rw [lookupFirst_updateFirst_ne _ _ _ _ (by decide),
        lookupFirst_updateFirst_ne _ _ _ _ (by decide),
        lookupFirst_updateFirst_ne _ _ _ _ (by decide),
        lookupFirst_updateFirst_self]
  · simp only [pyGetItem]
    rw [lookupFirst_updateFirst_ne _ _ _ _ (by decide),
        lookupFirst_updateFirst_ne _ _ _ _ (by decide),
        lookupFirst_updateFirst_self]
  · rw [← hksdef]
    simp only [pyGetItem]
    rw [lookupFirst_updateFirst_self]

/-- C10 (witness): the envelope theorem applied at a concrete normalized
record, base URL and instant. -/
theorem C10_witness :
    ∃ out, prepare_data_for_pulsar "http://j"
        (.obj [("id", .str "1"), ("key", .str "TES-1"), ("junk", .num 9)])
        "jira:issue_updated" ⟨2024, 1, 2, 3, 4, 5, 123456⟩ = .ok out ∧
      pyGetItem out "timestamp" =
        .ok (.str (strftime_ts ⟨2024, 1, 2, 3, 4, 5, 123456⟩)) ∧
      pyGetItem out "date" =
        .ok (.str (splitHeadT (strftime_ts ⟨2024, 1, 2, 3, 4, 5, 123456⟩))) ∧
      splitHeadT (strftime_ts ⟨2024, 1, 2, 3, 4, 5, 123456⟩) =
        ((strftime_ts ⟨2024, 1, 2, 3, 4, 5, 123456⟩).toList.take 10).asString ∧
      pyGetItem out "url" = .ok (.str ("http://j" ++ "/browse/" ++
        (match lookupFirst [("id", Json.str "1"), ("key", Json.str "TES-1"),
            ("junk", Json.num 9)] "key" with
         | some (.str s) => s
         | _ => ""))) :=
  C10_theorem "http://j" "jira:issue_updated" ⟨2024, 1, 2, 3, 4, 5, 123456⟩
    [("id", .str "1"), ("key", .str "TES-1"), ("junk", .num 9)]
    (.obj [("id", .str "1"), ("key", .str "TES-1")]) rfl
    (fun j h => ⟨"TES-1", by
      have h2 : some (Json.str "TES-1") = some j := h
      injection h2 with h3
      exact h3.symm⟩)
    (by norm_num) (by norm_num) (by norm_num)

end JiraPulsar
